import Mathlib

/-!
Shallow embedding of the Signal-protocol layer of the secure-communication
app: the primitive crypto utilities (src/SecurePoliceMessaging/src/crypto/utils.ts),
the X3DH key agreement (src/unnamed/part_018), the Double Ratchet
(src/unnamed/part_013), and the session-establishment logic of the mobile
messaging service (src/mobile/src/services/messagingService.ts).

Bytes are modelled as List Nat (each entry one byte value).  Library
functions that the repository merely calls (the noble-curves x25519 and
ed25519 operations, CryptoJS AES) are taken as explicit function
parameters of the embedded operations; everything the repository itself
computes is embedded structurally from the TypeScript source.
-/

set_option maxRecDepth 4000
set_option linter.unusedVariables false

/-- Models TextEncoder().encode on the ASCII strings used by the source
(protocol labels and ratchet seeds): the list of character codes. -/
def strBytes (s : String) : List Nat :=
  s.toList.map Char.toNat

/-- Embedding of hmacSha256 from src/SecurePoliceMessaging/src/crypto/utils.ts
(lines 85-91).  The source computes the CryptoJS HMAC-SHA256 digest of
message under key, but then returns new Uint8Array(hmac.words.length * 4):
a freshly allocated, never-written buffer.  A CryptoJS SHA-256 digest
always has 8 thirty-two-bit words, so the returned value is 32 zero
bytes, independent of message and key.  The digest itself is discarded,
so nothing of it needs to be modelled beyond its word count. -/
def hmacSha256 (message key : List Nat) : List Nat :=
  List.replicate (8 * 4) 0

/-- The expand loop of hkdf from utils.ts (lines 112-131).  The loop body
builds data = t \x7c\x7c info \x7c\x7c counter, reassigns t to
hmacSha256(data, prk), and copies min(t.length, remaining) bytes into the
output, until length bytes have been produced.  Each iteration copies at
least one byte (t always has 32 bytes), so the iteration count is bounded
by the requested length, which we pass as structural fuel.  Writing a
byte into a Uint8Array truncates modulo 256, hence counter % 256. -/
def hkdfExpand (info prk : List Nat) : Nat → List Nat → Nat → Nat → List Nat
  | 0, _, _, _ => []
  | fuel + 1, t, counter, remaining =>
    if remaining = 0 then []
    else
      let data := t ++ info ++ [counter % 256]
      let t2 := hmacSha256 data prk
      let toCopy := min t2.length remaining
      t2.take toCopy ++ hkdfExpand info prk fuel t2 (counter + 1) (remaining - toCopy)

/-- Embedding of hkdf from utils.ts (lines 102-134): extract step
prk = hmacSha256(ikm, salt), then the expand loop starting from an empty
t and counter 1, producing len output bytes. -/
def hkdf (ikm salt info : List Nat) (len : Nat) : List Nat :=
  let prk := hmacSha256 ikm salt
  hkdfExpand info prk len [] 1 len

/-! ## Key and message types (src/SecurePoliceMessaging/src/crypto/types.ts) -/

structure KeyPair where
  publicKey : List Nat
  privateKey : List Nat
deriving DecidableEq

structure SignedPreKey where
  keyId : Nat
  keyPair : KeyPair
  signature : List Nat
  timestamp : Nat
deriving DecidableEq

structure PreKey where
  keyId : Nat
  keyPair : KeyPair
deriving DecidableEq

structure PreKeyBundle where
  identityKey : List Nat
  signedPreKey : List Nat
  signedPreKeyId : Nat
  signedPreKeySignature : List Nat
  preKey : Option (List Nat)
  preKeyId : Option Nat
  registrationId : Nat
deriving DecidableEq

structure SessionState where
  sessionId : String
  remoteIdentityKey : List Nat
  rootKey : List Nat
  chainKey : List Nat
  sendingChainKey : Option (List Nat)
  receivingChainKey : Option (List Nat)
  messageNumber : Nat
  previousCounter : Nat
deriving DecidableEq

structure MessageKeys where
  cipherKey : List Nat
  macKey : List Nat
  iv : List Nat
deriving DecidableEq

/-- The wire envelope.  The type field is the string tag prekey or
message; the last four fields are optional and only meant to be present
on prekey envelopes. -/
structure EncryptedMessage where
  type : String
  registrationId : Nat
  messageVersion : Nat
  ciphertext : List Nat
  preKeyId : Option Nat
  signedPreKeyId : Option Nat
  baseKey : Option (List Nat)
  identityKey : Option (List Nat)
deriving DecidableEq

/-- The errors the Double Ratchet module can throw (part_013 lines
112-114, 158-160, and a decryption failure raised from inside CryptoJS
AES when the ciphertext does not decrypt). -/
inductive RatchetError where
  | noSendingChainKey
  | noReceivingChainKey
  | decryptionFailed
deriving DecidableEq

/-! ## Double Ratchet (src/unnamed/part_013)

The AES primitives and the TextEncoder/TextDecoder pair are library
calls (CryptoJS, the JS runtime); the embedded operations take them as
function parameters.  Decryption is fallible (CryptoJS throws on
malformed input), so its parameter returns an Option. -/

def MESSAGE_KEY_SEED : List Nat := strBytes "MessageKeys"
def CHAIN_KEY_SEED : List Nat := strBytes "ChainKey"
def ROOT_KEY_SEED : List Nat := strBytes "RootKey"

/-- Embedding of initializeSession (part_013 lines 21-43).  The sessionId
is built from Date.now() and Math.random() in the source; it is passed in
here as the run-specific input it is. -/
def initializeSession (sharedSecret remoteIdentityKey : List Nat)
    (isInitiator : Bool) (sessionId : String) : SessionState :=
  let salt := List.replicate 32 0
  let rootKey := hkdf sharedSecret salt ROOT_KEY_SEED 32
  let chainKey := hkdf sharedSecret salt CHAIN_KEY_SEED 32
  { sessionId := sessionId
    remoteIdentityKey := remoteIdentityKey
    rootKey := rootKey
    chainKey := chainKey
    sendingChainKey := if isInitiator then some chainKey else none
    receivingChainKey := if isInitiator then none else some chainKey
    messageNumber := 0
    previousCounter := 0 }

/-- Embedding of ratchetChainKey (part_013 lines 51-63): the pair of the
new chain key HMAC(0x02, chainKey) and the message key
HMAC(0x01, chainKey). -/
def ratchetChainKey (chainKey : List Nat) : List Nat × List Nat :=
  (hmacSha256 [2] chainKey, hmacSha256 [1] chainKey)

/-- Embedding of deriveMessageKeys (part_013 lines 69-81): an 80-byte
HKDF expansion split 32/32/16 into cipher key, MAC key and IV. -/
def deriveMessageKeys (messageKey : List Nat) : MessageKeys :=
  let keyMaterial := hkdf messageKey (List.replicate 32 0) MESSAGE_KEY_SEED 80
  { cipherKey := keyMaterial.take 32
    macKey := (keyMaterial.drop 32).take 32
    iv := (keyMaterial.drop 64).take 16 }

/-- Embedding of ratchetEncrypt (part_013 lines 108-146).  aesEnc is
CryptoJS AES-256-CBC encryption (plaintext, key, iv to a Base64 string)
and tEnc is TextEncoder().encode.  The envelope is built with type
message, registrationId 0, messageVersion 1 and no optional fields, as
in the source. -/
def ratchetEncrypt (aesEnc : String → List Nat → List Nat → String)
    (tEnc : String → List Nat)
    (session : SessionState) (plaintext : String) :
    Except RatchetError (EncryptedMessage × SessionState) :=
  match session.sendingChainKey with
  | none => Except.error RatchetError.noSendingChainKey
  | some ck =>
    let r := ratchetChainKey ck
    let messageKeys := deriveMessageKeys r.2
    let ciphertext := aesEnc plaintext messageKeys.cipherKey messageKeys.iv
    let encrypted : EncryptedMessage :=
      { type := "message"
        registrationId := 0
        messageVersion := 1
        ciphertext := tEnc ciphertext
        preKeyId := none
        signedPreKeyId := none
        baseKey := none
        identityKey := none }
    let newSession : SessionState :=
      { session with
        sendingChainKey := some r.1
        messageNumber := session.messageNumber + 1 }
    Except.ok (encrypted, newSession)

/-- Embedding of ratchetDecrypt (part_013 lines 154-186).  aesDec is
CryptoJS AES-256-CBC decryption, which fails (throws in the source) when
the ciphertext does not decrypt to valid UTF-8; tDec is
TextDecoder().decode. -/
def ratchetDecrypt (aesDec : String → List Nat → List Nat → Option String)
    (tDec : List Nat → String)
    (session : SessionState) (encrypted : EncryptedMessage) :
    Except RatchetError (String × SessionState) :=
  match session.receivingChainKey with
  | none => Except.error RatchetError.noReceivingChainKey
  | some ck =>
    let r := ratchetChainKey ck
    let messageKeys := deriveMessageKeys r.2
    let ciphertextStr := tDec encrypted.ciphertext
    match aesDec ciphertextStr messageKeys.cipherKey messageKeys.iv with
    | none => Except.error RatchetError.decryptionFailed
    | some plaintext =>
      let newSession : SessionState :=
        { session with
          receivingChainKey := some r.1
          previousCounter := session.messageNumber
          messageNumber := session.messageNumber + 1 }
      Except.ok (plaintext, newSession)

/-- The store-on-success pattern of decryptIncomingMessage
(messagingService.ts lines 265-268): the stored session is replaced by
the new session only when ratchetDecrypt succeeds; a failure propagates
before storeSession runs, so the stored session stays as it was. -/
def decryptAndStore (aesDec : String → List Nat → List Nat → Option String)
    (tDec : List Nat → String)
    (session : SessionState) (encrypted : EncryptedMessage) :
    SessionState × Option String :=
  match ratchetDecrypt aesDec tDec session encrypted with
  | Except.ok r => (r.2, some r.1)
  | Except.error _ => (session, none)

/-- Sequential encryption of a list of plaintexts, threading the session
returned by each ratchetEncrypt call into the next. -/
def encryptList (aesEnc : String → List Nat → List Nat → String)
    (tEnc : String → List Nat) :
    SessionState → List String →
      Except RatchetError (List EncryptedMessage × SessionState)
  | s, [] => Except.ok ([], s)
  | s, p :: ps =>
    match ratchetEncrypt aesEnc tEnc s p with
    | Except.error e => Except.error e
    | Except.ok r =>
      match encryptList aesEnc tEnc r.2 ps with
      | Except.error e => Except.error e
      | Except.ok rs => Except.ok (r.1 :: rs.1, rs.2)

/-- Sequential decryption of a list of envelopes, threading the session
returned by each ratchetDecrypt call into the next. -/
def decryptList (aesDec : String → List Nat → List Nat → Option String)
    (tDec : List Nat → String) :
    SessionState → List EncryptedMessage →
      Except RatchetError (List String × SessionState)
  | s, [] => Except.ok ([], s)
  | s, e :: es =>
    match ratchetDecrypt aesDec tDec s e with
    | Except.error err => Except.error err
    | Except.ok r =>
      match decryptList aesDec tDec r.2 es with
      | Except.error err => Except.error err
      | Except.ok rs => Except.ok (r.1 :: rs.1, rs.2)

/-- Initiator and responder sessions built by initializeSession from one
shared secret, the initiator encrypting a list of plaintexts in order
and the responder decrypting the resulting envelopes in order.  Returns
the list of recovered plaintexts when every step succeeds. -/
def roundTrip (aesEnc : String → List Nat → List Nat → String)
    (aesDec : String → List Nat → List Nat → Option String)
    (tEnc : String → List Nat) (tDec : List Nat → String)
    (sharedSecret remoteKey : List Nat) (sidA sidB : String)
    (ps : List String) : Option (List String) :=
  match encryptList aesEnc tEnc (initializeSession sharedSecret remoteKey true sidA) ps with
  | Except.error _ => none
  | Except.ok r =>
    match decryptList aesDec tDec (initializeSession sharedSecret remoteKey false sidB) r.1 with
    | Except.error _ => none
    | Except.ok d => some d.1

/-! ## X3DH (src/unnamed/part_018)

The noble-curves operations x25519.getSharedSecret (dh) and
x25519.getPublicKey (x25519Pub) are library calls taken as function
parameters; the ephemeral private key, produced by generateRandomBytes
in the source, is passed in as the random input it is. -/

structure X3dhResult where
  sharedSecret : List Nat
  ephemeralKey : List Nat
deriving DecidableEq

def X3DH_INFO : List Nat := strBytes "SecurePoliceMessaging_X3DH"

/-- Embedding of x3dhInitiator (part_018 lines 87-144): three DH
exchanges DH(IK_A, SPK_B), DH(EK_A, IK_B), DH(EK_A, SPK_B), a fourth
DH(EK_A, OPK_B) when the bundle has a one-time pre-key, concatenation in
that order, and a 32-byte HKDF under a zero salt and the protocol label.
The identity private key is sliced to its first 32 bytes as in the
source.  Note that the source performs no verification of the bundle
signature anywhere in this function. -/
def x3dhInitiator (dh : List Nat → List Nat → List Nat)
    (x25519Pub : List Nat → List Nat)
    (identityKeyPair : KeyPair) (remotePreKeyBundle : PreKeyBundle)
    (ephemeralPrivate : List Nat) : X3dhResult :=
  let ephemeralPublic := x25519Pub ephemeralPrivate
  let dh1 := dh (identityKeyPair.privateKey.take 32) remotePreKeyBundle.signedPreKey
  let dh2 := dh ephemeralPrivate remotePreKeyBundle.identityKey
  let dh3 := dh ephemeralPrivate remotePreKeyBundle.signedPreKey
  let dhOutputs := dh1 ++ dh2 ++ dh3
  let dhOutputs :=
    match remotePreKeyBundle.preKey with
    | some pk => dhOutputs ++ dh ephemeralPrivate pk
    | none => dhOutputs
  let salt := List.replicate 32 0
  let sharedSecret := hkdf dhOutputs salt X3DH_INFO 32
  { sharedSecret := sharedSecret, ephemeralKey := ephemeralPublic }

/-- Embedding of x3dhResponder (part_018 lines 156-203): the mirrored DH
exchanges DH(SPK_B, IK_A), DH(IK_B, EK_A), DH(SPK_B, EK_A), the optional
DH(OPK_B, EK_A), concatenation, and the same 32-byte HKDF. -/
def x3dhResponder (dh : List Nat → List Nat → List Nat)
    (identityKeyPair : KeyPair) (signedPreKey : SignedPreKey)
    (oneTimePreKey : Option PreKey)
    (remoteIdentityKey remoteEphemeralKey : List Nat) : List Nat :=
  let dh1 := dh signedPreKey.keyPair.privateKey (remoteIdentityKey.take 32)
  let dh2 := dh (identityKeyPair.privateKey.take 32) remoteEphemeralKey
  let dh3 := dh signedPreKey.keyPair.privateKey remoteEphemeralKey
  let dhOutputs := dh1 ++ dh2 ++ dh3
  let dhOutputs :=
    match oneTimePreKey with
    | some opk => dhOutputs ++ dh opk.keyPair.privateKey remoteEphemeralKey
    | none => dhOutputs
  let salt := List.replicate 32 0
  hkdf dhOutputs salt X3DH_INFO 32

/-- Embedding of verifySignedPreKey (part_018 lines 209-219): a direct
call to ed25519.verify(signature, publicKey, identityKey), taken as the
boolean library function edVerify. -/
def verifySignedPreKey (edVerify : List Nat → List Nat → List Nat → Bool)
    (publicKey signature identityKey : List Nat) : Bool :=
  edVerify signature publicKey identityKey

/-- The errors establishSession can raise before producing a session. -/
inductive EstablishError where
  | invalidSignature
  | noIdentityKeyPair
deriving DecidableEq

/-- Embedding of the cryptographic core of establishSession
(messagingService.ts lines 183-239): verify the bundle signature with
verifySignedPreKey and abort when it fails, look up the local identity
key pair and abort when it is missing, then run x3dhInitiator on the
bundle and initialize a Double Ratchet session as initiator keyed to the
bundle identity key.  The network fetch and storage calls around this
core carry no cryptographic content and are modelled as the already
fetched bundle and the returned session. -/
def establishSession (edVerify : List Nat → List Nat → List Nat → Bool)
    (dh : List Nat → List Nat → List Nat) (x25519Pub : List Nat → List Nat)
    (bundle : PreKeyBundle) (identityKeyPair : Option KeyPair)
    (ephemeralPrivate : List Nat) (sessionId : String) :
    Except EstablishError SessionState :=
  if verifySignedPreKey edVerify bundle.signedPreKey bundle.signedPreKeySignature bundle.identityKey then
    match identityKeyPair with
    | none => Except.error EstablishError.noIdentityKeyPair
    | some ik =>
      let r := x3dhInitiator dh x25519Pub ik bundle ephemeralPrivate
      Except.ok (initializeSession r.sharedSecret bundle.identityKey true sessionId)
  else
    Except.error EstablishError.invalidSignature

/-! ## Concrete library instantiations used by witnesses and concrete
evaluations.  These stand in for the AES, curve and text primitives when
a claim is evaluated on explicit inputs. -/

/-- A deterministic stand-in cipher whose output depends on the key and
IV, mirroring that CryptoJS AES-256-CBC with an explicit WordArray key
and IV is a deterministic function of (plaintext, key, iv). -/
def aesEncKeyed (plaintext : String) (key iv : List Nat) : String :=
  toString key ++ "|" ++ toString iv ++ "|" ++ plaintext

/-- A stand-in cipher that returns the plaintext unchanged. -/
def aesEncId (plaintext : String) (key iv : List Nat) : String :=
  plaintext

/-- The matching stand-in decryption for aesEncId. -/
def aesDecId (ciphertext : String) (key iv : List Nat) : Option String :=
  some ciphertext

/-- A decryption stand-in that always fails, exercising the CryptoJS
failure path. -/
def aesDecFail (ciphertext : String) (key iv : List Nat) : Option String :=
  none

/-- Concrete text encoding: character codes of the string. -/
def textEncode (s : String) : List Nat :=
  s.toList.map Char.toNat

/-- Concrete text decoding, the left inverse of textEncode. -/
def textDecode (l : List Nat) : String :=
  String.mk (l.map Char.ofNat)

/-- A stand-in for x25519.getSharedSecret that concatenates its inputs. -/
def dhConcat (a b : List Nat) : List Nat := a ++ b

/-- A stand-in for x25519.getPublicKey. -/
def idPub (k : List Nat) : List Nat := k

/-- A signature check that rejects everything, to exhibit behaviour on a
bundle whose signature does not verify. -/
def denyAll (sig pk ik : List Nat) : Bool := false

/-- A signature check that accepts everything, to follow the success
path of establishSession on explicit inputs. -/
def allowAll (sig pk ik : List Nat) : Bool := true

/-! ## Concrete sessions for evaluating the code on explicit inputs. -/

/-- An initiator session from an all-zero 32-byte shared secret and an
all-zero remote identity key, as in the spec test scenario. -/
def sess0 : SessionState :=
  initializeSession (List.replicate 32 0) (List.replicate 32 0) true "session0"

/-- One ratchetEncrypt step under the identity stand-in cipher, keeping
the new session (the input session on failure). -/
def encStepId (s : SessionState) (p : String) : SessionState :=
  match ratchetEncrypt aesEncId textEncode s p with
  | Except.ok r => r.2
  | Except.error _ => s

/-- The session after encrypting a first message on sess0. -/
def sess1 : SessionState := encStepId sess0 "first message"

/-- The session after encrypting a second message on sess1. -/
def sess2 : SessionState := encStepId sess1 "second message"

/-- True when the Except value is a success. -/
def exceptOk {ε α : Type} : Except ε α → Bool
  | Except.ok _ => true
  | Except.error _ => false

/-- The ciphertext produced by one ratchetEncrypt call under the
key-sensitive stand-in cipher, when the call succeeds. -/
def encCipherKeyed (s : SessionState) (p : String) : Option (List Nat) :=
  match ratchetEncrypt aesEncKeyed textEncode s p with
  | Except.ok r => some r.1.ciphertext
  | Except.error _ => none

/-- A responder-side session with a receiving chain, for exercising the
decryption paths on explicit inputs. -/
def sessB0 : SessionState :=
  initializeSession (List.replicate 32 5) (List.replicate 32 6) false "responderSession"

/-- A concrete incoming envelope. -/
def envW : EncryptedMessage :=
  { type := "message"
    registrationId := 0
    messageVersion := 1
    ciphertext := [1, 2, 3]
    preKeyId := none
    signedPreKeyId := none
    baseKey := none
    identityKey := none }

/-- A concrete pre-key bundle for following establishSession and the
first message envelope on explicit inputs. -/
def demoBundle : PreKeyBundle :=
  { identityKey := List.replicate 32 8
    signedPreKey := List.replicate 32 6
    signedPreKeyId := 1
    signedPreKeySignature := List.replicate 64 9
    preKey := some (List.replicate 32 3)
    preKeyId := some 7
    registrationId := 42 }

/-- A concrete local identity key pair. -/
def demoIdentity : KeyPair :=
  { publicKey := List.replicate 32 4, privateKey := List.replicate 32 1 }

/-- The first envelope the initiator produces for a session freshly
established through establishSession: establish, then encrypt the first
message with ratchetEncrypt, as sendMessage does. -/
def firstEnvelope : Option EncryptedMessage :=
  match establishSession allowAll dhConcat idPub demoBundle (some demoIdentity)
      (List.replicate 32 9) "sessionE" with
  | Except.error _ => none
  | Except.ok s =>
    match ratchetEncrypt aesEncId textEncode s "first message" with
    | Except.error _ => none
    | Except.ok r => some r.1

/-- The envelope ratchetEncrypt builds around a given ciphertext byte
array. -/
def mkMessageEnvelope (c : List Nat) : EncryptedMessage :=
  { type := "message"
    registrationId := 0
    messageVersion := 1
    ciphertext := c
    preKeyId := none
    signedPreKeyId := none
    baseKey := none
    identityKey := none }

/-- Witness for claim C1 at explicit inputs: a concrete bundle whose
signed pre-key and one-time pre-key public halves match the responder
private keys under the stand-in curve functions. -/
def wIkA : KeyPair := { publicKey := [7, 7], privateKey := [1, 2, 3] }

def wIkB : KeyPair := { publicKey := [8, 8], privateKey := [4, 5] }

def wSpkB : SignedPreKey :=
  { keyId := 1
    keyPair := { publicKey := [6, 6], privateKey := [6, 6] }
    signature := [9]
    timestamp := 0 }

def wOpkB : Option PreKey :=
  some { keyId := 2, keyPair := { publicKey := [3, 3], privateKey := [3, 3] } }

def wBundle : PreKeyBundle :=
  { identityKey := [8, 8]
    signedPreKey := [6, 6]
    signedPreKeyId := 1
    signedPreKeySignature := [9]
    preKey := some [3, 3]
    preKeyId := some 2
    registrationId := 0 }

/-! ## Claims -/

theorem take_replicate_min {α : Type} (a : α) :
    ∀ n m, List.take n (List.replicate m a) = List.replicate (min n m) a := by
  intro n
  induction n with
  | zero => intro m; simp
  | succ k ih =>
    intro m
    cases m with
    | zero => simp
    | succ j =>
      simp [List.replicate_succ, List.take_succ_cons, ih j, Nat.succ_min_succ]

theorem hkdfExpand_eq_replicate (info prk : List Nat) :
    ∀ fuel t counter remaining, remaining ≤ fuel →
      hkdfExpand info prk fuel t counter remaining = List.replicate remaining 0 := by
  intro fuel
  induction fuel with
  | zero =>
    intro t counter remaining h
    interval_cases remaining
    rfl
  | succ k ih =>
    intro t counter remaining h
    by_cases h0 : remaining = 0
    · subst h0; simp [hkdfExpand]
    · rw [hkdfExpand]
      simp only [if_neg h0, hmacSha256, List.length_replicate]
      rw [take_replicate_min, ih _ _ _ (by omega), ← List.replicate_add]
      congr 1
      omega

/-- Every hkdf output is all zeros, a direct consequence of the
hmacSha256 return-value bug. -/
theorem hkdf_eq_replicate (ikm salt info : List Nat) (len : Nat) :
    hkdf ikm salt info len = List.replicate len 0 :=
  hkdfExpand_eq_replicate info (hmacSha256 ikm salt) len [] 1 len (Nat.le_refl len)

theorem textDecode_textEncode (s : String) : textDecode (textEncode s) = s := by
  unfold textDecode textEncode
  rw [List.map_map]
  have h : (Char.ofNat ∘ Char.toNat) = id := by
    funext c
    simp [Function.comp, Char.ofNat_toNat]
  rw [h, List.map_id]
  cases s
  rfl



/-- Claim C3: for every message and key, hmacSha256 returns a 32-byte
all-zero array, because the source computes the CryptoJS digest but
returns a freshly allocated, never-written Uint8Array; consequently
hkdf returns an all-zero output of the requested length for every input
key material, salt, info and length. -/
theorem hmacSha256_hkdf_all_zero (m k ikm salt info : List Nat) (len : Nat) :
    hmacSha256 m k = List.replicate 32 0 ∧
    hkdf ikm salt info len = List.replicate len 0 :=
  ⟨rfl, hkdf_eq_replicate ikm salt info len⟩

/-- Claim C10: initializeSession derives rootKey and chainKey by HKDF
over the shared secret with a 32-byte zero salt and the RootKey and
ChainKey labels, assigns chainKey to the sending chain for the
initiator and to the receiving chain otherwise, leaves the opposite
chain unset, and starts messageNumber at 0. -/
theorem initializeSession_fields (ss rk : List Nat) (b : Bool) (sid : String) :
    (initializeSession ss rk b sid).rootKey
        = hkdf ss (List.replicate 32 0) ROOT_KEY_SEED 32 ∧
    (initializeSession ss rk b sid).chainKey
        = hkdf ss (List.replicate 32 0) CHAIN_KEY_SEED 32 ∧
    (initializeSession ss rk b sid).sendingChainKey
        = (if b then some ((initializeSession ss rk b sid).chainKey) else none) ∧
    (initializeSession ss rk b sid).receivingChainKey
        = (if b then none else some ((initializeSession ss rk b sid).chainKey)) ∧
    (initializeSession ss rk b sid).messageNumber = 0 := by
  cases b <;> simp [initializeSession]

/-- Claim C9: ratchetEncrypt fails with the no-sending-chain error
exactly when the sending chain key is unset, and ratchetDecrypt fails
with the no-receiving-chain error exactly when the receiving chain key
is unset; with the required chain key present, that error is not
raised. -/
theorem chain_errors_iff_missing_chain
    (aesEnc : String → List Nat → List Nat → String)
    (aesDec : String → List Nat → List Nat → Option String)
    (tEnc : String → List Nat) (tDec : List Nat → String)
    (s : SessionState) (p : String) (env : EncryptedMessage) :
    (ratchetEncrypt aesEnc tEnc s p
        = Except.error RatchetError.noSendingChainKey
      ↔ s.sendingChainKey = none) ∧
    (ratchetDecrypt aesDec tDec s env
        = Except.error RatchetError.noReceivingChainKey
      ↔ s.receivingChainKey = none) := by
  constructor
  · cases hs : s.sendingChainKey <;> simp [ratchetEncrypt, hs]
  · cases hr : s.receivingChainKey with
    | none => simp [ratchetDecrypt, hr]
    | some ck =>
      simp only [ratchetDecrypt, hr]
      cases hdec : aesDec (tDec env.ciphertext)
          (deriveMessageKeys (ratchetChainKey ck).2).cipherKey
          (deriveMessageKeys (ratchetChainKey ck).2).iv <;> simp [hdec]

/-- Claim C8: whenever ratchetDecrypt fails, no new session state is
produced and the session the caller keeps is the unchanged input
session: the receiving chain key, messageNumber and previousCounter are
exactly those of the input. -/
theorem ratchetDecrypt_failure_keeps_session
    (aesDec : String → List Nat → List Nat → Option String)
    (tDec : List Nat → String)
    (s : SessionState) (env : EncryptedMessage) (e : RatchetError)
    (h : ratchetDecrypt aesDec tDec s env = Except.error e) :
    decryptAndStore aesDec tDec s env = (s, none) ∧
    (decryptAndStore aesDec tDec s env).1.receivingChainKey = s.receivingChainKey ∧
    (decryptAndStore aesDec tDec s env).1.messageNumber = s.messageNumber ∧
    (decryptAndStore aesDec tDec s env).1.previousCounter = s.previousCounter := by
  simp [decryptAndStore, h]

/-- Witness for claim C8 at explicit inputs: a decryption failure on a
concrete responder session leaves the stored session untouched. -/
theorem ratchetDecrypt_failure_keeps_session_witness :
    decryptAndStore aesDecFail textDecode sessB0 envW = (sessB0, none) ∧
    (decryptAndStore aesDecFail textDecode sessB0 envW).1.receivingChainKey
        = sessB0.receivingChainKey ∧
    (decryptAndStore aesDecFail textDecode sessB0 envW).1.messageNumber
        = sessB0.messageNumber ∧
    (decryptAndStore aesDecFail textDecode sessB0 envW).1.previousCounter
        = sessB0.previousCounter :=
  ratchetDecrypt_failure_keeps_session aesDecFail textDecode sessB0 envW
    RatchetError.decryptionFailed (by rfl)

/-- Claim C5 is false on the code: two sequential ratchetEncrypt calls
leave the sending chain key exactly as it was.  Both new chain key
values equal each other and equal the original chain key (all are the
32-byte zero value), because hmacSha256 returns a constant zero array.
The spec asserts the three values are pairwise distinct. -/
theorem ratchet_chain_key_never_advances :
    sess0.sendingChainKey = some (List.replicate 32 0) ∧
    exceptOk (ratchetEncrypt aesEncId textEncode sess0 "first message") = true ∧
    exceptOk (ratchetEncrypt aesEncId textEncode sess1 "second message") = true ∧
    sess1.sendingChainKey = sess0.sendingChainKey ∧
    sess2.sendingChainKey = sess1.sendingChainKey :=
  ⟨by decide, by rfl, by rfl, by decide, by decide⟩

/-- Claim C6 is false on the code: encrypting the same plaintext twice
produces byte-identical ciphertexts under any deterministic key-and-iv
driven cipher (CryptoJS AES-256-CBC with an explicit key and IV is such
a cipher), both for two calls on the same state and even for the
sequential second call on the returned new session, because the message
key is the same constant in every call. -/
theorem ratchet_encrypt_message_key_reuse :
    encCipherKeyed sess0 "identical plaintext"
        = encCipherKeyed sess1 "identical plaintext" ∧
    encCipherKeyed sess0 "identical plaintext" ≠ none ∧
    sess1.sendingChainKey = sess0.sendingChainKey :=
  ⟨by decide, by decide, by decide⟩

/-- Claim C7 is false on the code: the first envelope produced after
establishSession is a plain message envelope; its type tag is message,
and its baseKey and identityKey fields are absent, so the X3DH ephemeral
public key is never transmitted to the peer. -/
theorem first_envelope_not_prekey :
    Option.map (fun env => env.type) firstEnvelope = some "message" ∧
    Option.map (fun env => env.baseKey) firstEnvelope = some none ∧
    Option.map (fun env => env.identityKey) firstEnvelope = some none :=
  ⟨by rfl, by rfl, by rfl⟩

/-- When the sender and receiver hold the same chain key and the
supplied cipher and text primitives invert each other, encrypting a list
of plaintexts in order on one side and decrypting the envelopes in order
on the other recovers the plaintexts, with both sides stepping their
chains in lockstep. -/
theorem encrypt_decrypt_chain
    (aesEnc : String → List Nat → List Nat → String)
    (aesDec : String → List Nat → List Nat → Option String)
    (tEnc : String → List Nat) (tDec : List Nat → String)
    (hdec : ∀ p k iv, aesDec (aesEnc p k iv) k iv = some p)
    (htxt : ∀ s, tDec (tEnc s) = s) :
    ∀ (ps : List String) (ck : List Nat) (sA sB : SessionState),
      sA.sendingChainKey = some ck → sB.receivingChainKey = some ck →
      ∃ envs sA2 sB2,
        encryptList aesEnc tEnc sA ps = Except.ok (envs, sA2) ∧
        decryptList aesDec tDec sB envs = Except.ok (ps, sB2) := by
  intro ps
  induction ps with
  | nil =>
    intro ck sA sB hA hB
    exact ⟨[], sA, sB, rfl, rfl⟩
  | cons p ps ih =>
    intro ck sA sB hA hB
    have hench : ratchetEncrypt aesEnc tEnc sA p = Except.ok
        (mkMessageEnvelope (tEnc (aesEnc p
            (deriveMessageKeys (ratchetChainKey ck).2).cipherKey
            (deriveMessageKeys (ratchetChainKey ck).2).iv)),
         { sA with sendingChainKey := some (ratchetChainKey ck).1,
                   messageNumber := sA.messageNumber + 1 }) := by
      simp [ratchetEncrypt, hA, mkMessageEnvelope]
    have hdech : ratchetDecrypt aesDec tDec sB
        (mkMessageEnvelope (tEnc (aesEnc p
            (deriveMessageKeys (ratchetChainKey ck).2).cipherKey
            (deriveMessageKeys (ratchetChainKey ck).2).iv))) = Except.ok
        (p, { sB with receivingChainKey := some (ratchetChainKey ck).1,
                      previousCounter := sB.messageNumber,
                      messageNumber := sB.messageNumber + 1 }) := by
      simp [ratchetDecrypt, hB, mkMessageEnvelope, htxt, hdec]
    obtain ⟨envs, sA2, sB2, hE, hD⟩ := ih (ratchetChainKey ck).1
        { sA with sendingChainKey := some (ratchetChainKey ck).1,
                  messageNumber := sA.messageNumber + 1 }
        { sB with receivingChainKey := some (ratchetChainKey ck).1,
                  previousCounter := sB.messageNumber,
                  messageNumber := sB.messageNumber + 1 }
        rfl rfl
    refine ⟨mkMessageEnvelope (tEnc (aesEnc p
        (deriveMessageKeys (ratchetChainKey ck).2).cipherKey
        (deriveMessageKeys (ratchetChainKey ck).2).iv)) :: envs, sA2, sB2, ?_, ?_⟩
    · simp only [encryptList, hench, hE]
    · simp only [decryptList, hdech, hD]

/-- Claim C4: for every 32-byte shared secret and remote identity key,
the initiator session from initializeSession(s, rk, true) and the
responder session from initializeSession(s, rk, false) are
complementary: every plaintext encrypted with ratchetEncrypt on the
initiator side decrypts with ratchetDecrypt on the responder side to
exactly the original plaintext, with both sides having taken the same
number of ratchet steps.  The cipher and text primitives are assumed to
invert each other, which is the CryptoJS AES-256-CBC round-trip. -/
theorem double_ratchet_roundtrip
    (aesEnc : String → List Nat → List Nat → String)
    (aesDec : String → List Nat → List Nat → Option String)
    (tEnc : String → List Nat) (tDec : List Nat → String)
    (hdec : ∀ p k iv, aesDec (aesEnc p k iv) k iv = some p)
    (htxt : ∀ s, tDec (tEnc s) = s)
    (ss rk : List Nat) (sidA sidB : String) (ps : List String) :
    roundTrip aesEnc aesDec tEnc tDec ss rk sidA sidB ps = some ps := by
  obtain ⟨envs, sA2, sB2, hE, hD⟩ :=
    encrypt_decrypt_chain aesEnc aesDec tEnc tDec hdec htxt ps
      (hkdf ss (List.replicate 32 0) CHAIN_KEY_SEED 32)
      (initializeSession ss rk true sidA) (initializeSession ss rk false sidB)
      (by simp [initializeSession]) (by simp [initializeSession])
  simp [roundTrip, hE, hD]

/-- Witness for claim C4 at explicit inputs: three messages encrypted on
the initiator session come back unchanged from the responder session. -/
theorem double_ratchet_roundtrip_witness :
    roundTrip aesEncId aesDecId textEncode textDecode (List.replicate 32 0)
        (List.replicate 32 3) "sessionA" "sessionB" ["hello", "secure", "world"]
      = some ["hello", "secure", "world"] :=
  double_ratchet_roundtrip aesEncId aesDecId textEncode textDecode
    (fun p k iv => rfl) textDecode_textEncode (List.replicate 32 0)
    (List.replicate 32 3) "sessionA" "sessionB" ["hello", "secure", "world"]

/-- Claim C1: for every initiator identity key pair and every honestly
generated responder key material whose public halves appear in the
bundle, the shared secret x3dhInitiator derives from the bundle equals,
byte for byte over all 32 bytes, the shared secret x3dhResponder
derives from the matching private keys, the initiator identity public
key and the ephemeral public key x3dhInitiator returned.  On this code
the equality holds because hkdf maps every input to the same all-zero
32-byte output (the hmacSha256 return-value bug), so both sides derive
the identical 32-byte value whatever the DH function computes. -/
theorem x3dh_shared_secret_agreement
    (dh : List Nat → List Nat → List Nat) (x25519Pub : List Nat → List Nat)
    (ikA ikB : KeyPair) (spkB : SignedPreKey) (opkB : Option PreKey)
    (bundle : PreKeyBundle) (ephPriv : List Nat)
    (hspk : bundle.signedPreKey = spkB.keyPair.publicKey)
    (hspkHonest : spkB.keyPair.publicKey = x25519Pub spkB.keyPair.privateKey)
    (hik : bundle.identityKey = ikB.publicKey)
    (hopk : bundle.preKey = Option.map (fun p => p.keyPair.publicKey) opkB) :
    (x3dhInitiator dh x25519Pub ikA bundle ephPriv).sharedSecret
      = x3dhResponder dh ikB spkB opkB ikA.publicKey
          (x3dhInitiator dh x25519Pub ikA bundle ephPriv).ephemeralKey := by
  simp [x3dhInitiator, x3dhResponder, hkdf_eq_replicate]

theorem x3dh_shared_secret_agreement_witness :
    wBundle.signedPreKey = wSpkB.keyPair.publicKey ∧
    wSpkB.keyPair.publicKey = idPub wSpkB.keyPair.privateKey ∧
    wBundle.identityKey = wIkB.publicKey ∧
    wBundle.preKey = Option.map (fun p => p.keyPair.publicKey) wOpkB ∧
    (x3dhInitiator dhConcat idPub wIkA wBundle [11, 12]).sharedSecret
      = x3dhResponder dhConcat wIkB wSpkB wOpkB wIkA.publicKey
          (x3dhInitiator dhConcat idPub wIkA wBundle [11, 12]).ephemeralKey :=
  ⟨rfl, rfl, rfl, rfl,
    x3dh_shared_secret_agreement dhConcat idPub wIkA wIkB wSpkB wOpkB wBundle
      [11, 12] rfl rfl rfl rfl⟩

/-- Counterexample for claim C2 as stated: on a bundle whose signature
verifies against nothing (the signature check rejects it), x3dhInitiator
does not abort and returns a 32-byte shared secret all the same, because
the function contains no call to any verification at all; the signature
check lives only in the caller. -/
theorem x3dhInitiator_ignores_signature_cx :
    verifySignedPreKey denyAll demoBundle.signedPreKey
        demoBundle.signedPreKeySignature demoBundle.identityKey = false ∧
    (x3dhInitiator dhConcat idPub demoIdentity demoBundle
        (List.replicate 32 2)).sharedSecret = List.replicate 32 0 ∧
    (x3dhInitiator dhConcat idPub demoIdentity demoBundle
        (List.replicate 32 2)).sharedSecret.length = 32 :=
  ⟨rfl, by rfl, by decide⟩

/-- Claim C2 amended: the signature check is not inside x3dhInitiator
but in its caller establishSession, which aborts with an
invalid-signature error, before any DH computation or session creation,
whenever the bundle signedPreKeySignature does not verify against the
bundle identityKey. -/
theorem establishSession_aborts_on_bad_signature
    (edVerify : List Nat → List Nat → List Nat → Bool)
    (dh : List Nat → List Nat → List Nat) (x25519Pub : List Nat → List Nat)
    (bundle : PreKeyBundle) (identityKeyPair : Option KeyPair)
    (ephemeralPrivate : List Nat) (sessionId : String)
    (h : verifySignedPreKey edVerify bundle.signedPreKey
        bundle.signedPreKeySignature bundle.identityKey = false) :
    establishSession edVerify dh x25519Pub bundle identityKeyPair
        ephemeralPrivate sessionId
      = Except.error EstablishError.invalidSignature := by
  simp [establishSession, h]

/-- Witness for the amended claim C2 at explicit inputs. -/
theorem establishSession_aborts_on_bad_signature_witness :
    establishSession denyAll dhConcat idPub demoBundle (some demoIdentity)
        (List.replicate 32 2) "sessionX"
      = Except.error EstablishError.invalidSignature :=
  establishSession_aborts_on_bad_signature denyAll dhConcat idPub demoBundle
    (some demoIdentity) (List.replicate 32 2) "sessionX" rfl
